import Mathlib

/-!
Verification of the 35mm Film Scanner web app (`script.js`, most complete
revision) against its natural-language specification.

The client script keeps all state in an IndexedDB database `FilmScannerDB`
with two object stores (`images`, `logs`), a nullable handle `imagesDB`
(null until asynchronous initialization completes) and a process-wide
string `activeFolder` (empty string when no folder is selected).  We embed
that state shallowly: blobs are byte lists with a MIME tag, the IndexedDB
auto-increment key generator is an explicit `nextId` counter, and each
event handler becomes a function from state (plus the external inputs the
handler consumes) to state and an explicit result.
-/

namespace FilmScanner

/-- A binary blob: payload bytes plus a MIME type tag. -/
structure Blob where
  bytes : List Nat
  mime : String
deriving DecidableEq, Repr

/-- One record of the `images` object store: the JS code stores
`{ name, blob, folder }` and IndexedDB assigns the auto-increment `id`. -/
structure ImageAsset where
  id : Nat
  name : String
  blob : Blob
  folder : String
deriving DecidableEq, Repr

/-- One record of the `logs` object store, as built by `saveLog`. -/
structure LogEntry where
  timestamp : String
  level : String
  message : String
deriving DecidableEq, Repr

/-- The contents of the open `FilmScannerDB` database: both object stores
plus the auto-increment key generator of the `images` store. -/
structure DBState where
  images : List ImageAsset
  logs : List LogEntry
  nextId : Nat
deriving DecidableEq, Repr

/-- The script's mutable globals: `imagesDB` (null before initialization
succeeds) and `activeFolder` (the empty string means none selected). -/
structure AppState where
  imagesDB : Option DBState
  activeFolder : String
deriving DecidableEq, Repr

/-- The error taxonomy of the spec, for the outcomes the embedded handlers
can actually produce. -/
inductive StoreError where
  | StoreNotReady
  | NoActiveFolder
  | EmptyFolder
deriving DecidableEq, Repr

/-- `saveToIndexedDB(imageBlob, fileName, folderName)`: if `imagesDB` is
null it reports an error and returns without writing; otherwise it adds
`{ name, blob, folder }` to the `images` store, IndexedDB assigning the
next auto-increment id. -/
def saveToIndexedDB (s : AppState) (imageBlob : Blob) (fileName folderName : String) :
    AppState × Except StoreError Nat :=
  match s.imagesDB with
  | none => (s, .error .StoreNotReady)
  | some db =>
      let asset : ImageAsset :=
        { id := db.nextId, name := fileName, blob := imageBlob, folder := folderName }
      ({ s with imagesDB := some { db with images := db.images ++ [asset],
                                           nextId := db.nextId + 1 } },
       .ok db.nextId)

/-- `clearIndexedDB()`: if `imagesDB` is null it reports an error and
returns; otherwise it opens a transaction on the `images` object store
only and clears that store. The `logs` store is untouched. -/
def clearIndexedDB (s : AppState) : AppState × Except StoreError Unit :=
  match s.imagesDB with
  | none => (s, .error .StoreNotReady)
  | some db => ({ s with imagesDB := some { db with images := [] } }, .ok ())

/-- `saveLog(message, level)`: when `imagesDB` is open, adds a log entry to
the `logs` object store; otherwise falls back to localStorage, leaving the
database (still unopened) unchanged. -/
def saveLog (s : AppState) (message level timestamp : String) : AppState :=
  match s.imagesDB with
  | none => s
  | some db =>
      let entry : LogEntry := ⟨timestamp, level, message⟩
      { s with imagesDB := some { db with logs := db.logs ++ [entry] } }

/-- The `deleteAllBtn` click handler: asks for confirmation and exits on
decline; then, exactly like `clearIndexedDB`, clears only the `images`
object store (failing if `imagesDB` is null). -/
def deleteAllBtnClick (s : AppState) (confirmed : Bool) : AppState × Except StoreError Unit :=
  if !confirmed then (s, .ok ())
  else
    match s.imagesDB with
    | none => (s, .error .StoreNotReady)
    | some db => ({ s with imagesDB := some { db with images := [] } }, .ok ())

/-- The logs currently recorded in the database, when it is open. -/
def getLogs (s : AppState) : Option (List LogEntry) :=
  s.imagesDB.map DBState.logs

/-- The per-pixel channel inversion loop of `processImage`: walks the RGBA
byte array with stride 4, replacing each of the red, green and blue
channels by `255 - v` and leaving the alpha byte alone.  (The trailing
partial-pixel cases mirror the JS loop, whose last iteration still assigns
the in-range indices when the array length is not a multiple of 4.) -/
def invertData : List Nat → List Nat
  | r :: g :: b :: a :: rest => (255 - r) :: (255 - g) :: (255 - b) :: a :: invertData rest
  | [r, g, b] => [255 - r, 255 - g, 255 - b]
  | [r, g] => [255 - r, 255 - g]
  | [r] => [255 - r]
  | [] => []

/-- The alpha channel of an RGBA byte array: every fourth byte. -/
def alphaChannel : List Nat → List Nat
  | _ :: _ :: _ :: a :: rest => a :: alphaChannel rest
  | _ => []

/-- One step of the `reduce` inside `retrieveFromIndexedDB`: if the map has
no entry for the image's folder yet, a fresh entry is created at the end
(JS object string keys keep insertion order); then the image is pushed onto
its folder's list. -/
def folderMapStep (map : List (String × List ImageAsset)) (image : ImageAsset) :
    List (String × List ImageAsset) :=
  if map.any (fun p => p.1 == image.folder) then
    map.map (fun p => if p.1 = image.folder then (p.1, p.2 ++ [image]) else p)
  else
    map ++ [(image.folder, [image])]

/-- The Folder Index: `retrieveFromIndexedDB` reduces the `getAll()`
snapshot of the `images` store into a map from folder name to the list of
its images, in snapshot order. -/
def folderMap (images : List ImageAsset) : List (String × List ImageAsset) :=
  images.foldl folderMapStep []

/-- `map[f]` on the derived folder map: the asset list of the first entry
keyed `f`, or the empty list when there is none. -/
def groupOf (f : String) : List (String × List ImageAsset) → List ImageAsset
  | [] => []
  | p :: rest => if p.1 = f then p.2 else groupOf f rest

/-- The `getAll()` snapshot of the `images` object store (empty when the
database is not open, in which case `retrieveFromIndexedDB` bails out). -/
def storeImages (s : AppState) : List ImageAsset :=
  match s.imagesDB with
  | none => []
  | some db => db.images

/-- A sequence of `put` operations (blob, name, folder) applied through
`saveToIndexedDB`, ignoring each call's returned id. -/
def applyPuts (s : AppState) : List (Blob × String × String) → AppState
  | [] => s
  | (b, n, f) :: rest => applyPuts (saveToIndexedDB s b n f).1 rest

/-- The outcome the `processBtn` handler reports through its alerts. -/
inductive PipelineResult where
  | noActiveFolder
  | storeCrash
  | emptyFolder
  | completed (destFolder : String) (failureCount : Nat)
deriving DecidableEq, Repr

/-- The per-asset loop of the `processBtn` handler, over the snapshot of
the source folder paired with each asset's delegated-service outcome
(`some processedBlob` is a success response whose body is the converted
bytes; `none` is a non-success response or transport error, i.e.
RemoteProcessingFailure).  A success is saved via `saveToIndexedDB` under
the derived name into the destination folder; a failure is logged/alerted
and the loop continues with the next asset.  Returns the final state and
how many items failed. -/
def runBatch (dest : String) : AppState → List (ImageAsset × Option Blob) → AppState × Nat
  | s, [] => (s, 0)
  | s, (image, outcome) :: rest =>
    match outcome with
    | some processedBlob =>
        runBatch dest
          (saveToIndexedDB s processedBlob ("processed_" ++ image.name) dest).1 rest
    | none =>
        let r := runBatch dest s rest
        (r.1, r.2 + 1)

/-- The `processBtn` click handler: bails out if no folder is selected;
opens a transaction on `imagesDB` (a null handle would throw, modelled as
`storeCrash`); filters the `getAll()` snapshot down to the active folder;
bails out if that filter is empty; otherwise runs the per-asset loop into
`processed_<activeFolder>` and finally alerts completion naming the
destination folder — regardless of how many items failed. -/
def processBtnClick (s : AppState) (outcomes : List (Option Blob)) :
    AppState × PipelineResult :=
  if s.activeFolder = "" then (s, .noActiveFolder)
  else
    match s.imagesDB with
    | none => (s, .storeCrash)
    | some db =>
        let images := db.images.filter (fun image => image.folder == s.activeFolder)
        if images.length = 0 then (s, .emptyFolder)
        else
          let processedFolderName := "processed_" ++ s.activeFolder
          let r := runBatch processedFolderName s (images.zip outcomes)
          (r.1, .completed processedFolderName r.2)

/-- The `captureBtn` click handler: draws the video frame to the canvas,
converts it to a blob and saves it under `Image_<timestamp>.png` via
`saveToIndexedDB`, whose folder argument defaults to `activeFolder`.
There is no check that a folder is selected. -/
def captureBtnClick (s : AppState) (frame : Blob) (now : Nat) :
    AppState × Except StoreError Nat :=
  saveToIndexedDB s frame ("Image_" ++ toString now ++ ".png") s.activeFolder

/-- The three views the script toggles via `style.display`. -/
inductive View where
  | Menu
  | FolderContents
  | Scanning
deriving DecidableEq, Repr

/-- View-controller state: the visible view, and whether a camera media
stream is live (attached to `camera.srcObject` with its tracks running). -/
structure UIState where
  view : View
  cameraStreamLive : Bool
deriving DecidableEq, Repr

/-- The `startScanBtn` click handler: shows the scanning view and calls
`startCamera`, which attaches the `getUserMedia` stream on success and
only alerts on failure. -/
def startScanBtnClick (u : UIState) (cameraGranted : Bool) : UIState :=
  { view := View.Scanning, cameraStreamLive := u.cameraStreamLive || cameraGranted }

/-- The `backToMenuBtnScan` click handler: hides the scanning view, shows
the menu and re-derives the folder list via `retrieveFromIndexedDB`.  It
never touches `camera.srcObject`, and no call anywhere in the script stops
a media-stream track, so an attached stream stays live. -/
def backToMenuBtnScanClick (u : UIState) : UIState :=
  { u with view := View.Menu }

/-- Modelled from the spec: the repository's sources only declare the
`downloadAllBtn` element and contain no download-all/export handler, so
the export operation itself is missing from the provided code.  Following
the spec (§4.5): fail with `EmptyFolder` when the folder has no assets;
otherwise produce a single archive with one entry per asset — entry name
the asset's `name`, entry content the asset's payload bytes — in the
folder's insertion order.  It is a pure function of the database contents
and so never mutates the store. -/
def exportFolder (db : DBState) (folderName : String) :
    Except StoreError (List (String × Blob)) :=
  let assets := db.images.filter (fun a => a.folder == folderName)
  if assets.isEmpty then .error .EmptyFolder
  else .ok (assets.map (fun a => (a.name, a.blob)))

/-- A small concrete store used by the witnesses: three assets in folder
"A", store initialized, next key 4. -/
def sampleDB : DBState :=
  ⟨[⟨1, "a", ⟨[0], "image/png"⟩, "A"⟩,
    ⟨2, "b", ⟨[1], "image/png"⟩, "A"⟩,
    ⟨3, "c", ⟨[2], "image/png"⟩, "A"⟩], [], 4⟩

/-- Concrete application state over `sampleDB` with folder "A" active. -/
def sampleState : AppState := ⟨some sampleDB, "A"⟩

/-- A concrete outcome pattern: the delegated service fails for exactly
the second of the three assets. -/
def sampleOutcomes : List (Option Blob) :=
  [some ⟨[9], "image/jpeg"⟩, none, some ⟨[8], "image/jpeg"⟩]

end FilmScanner

namespace FilmScanner

/-! ### Basic store lemmas -/

theorem saveToIndexedDB_none (s : AppState) (b : Blob) (n f : String)
    (h : s.imagesDB = none) :
    saveToIndexedDB s b n f = (s, .error .StoreNotReady) := by
  unfold saveToIndexedDB
  rw [h]

theorem saveToIndexedDB_some (s : AppState) (db : DBState) (b : Blob) (n f : String)
    (h : s.imagesDB = some db) :
    saveToIndexedDB s b n f =
      ({ s with imagesDB := some { db with
          images := db.images ++ [⟨db.nextId, n, b, f⟩],
          nextId := db.nextId + 1 } },
       .ok db.nextId) := by
  unfold saveToIndexedDB
  rw [h]

theorem clearIndexedDB_none (s : AppState) (h : s.imagesDB = none) :
    clearIndexedDB s = (s, .error .StoreNotReady) := by
  unfold clearIndexedDB
  rw [h]

theorem clearIndexedDB_some (s : AppState) (db : DBState) (h : s.imagesDB = some db) :
    clearIndexedDB s = ({ s with imagesDB := some { db with images := [] } }, .ok ()) := by
  unfold clearIndexedDB
  rw [h]

/-! ### C3: mutations before initialization fail with StoreNotReady -/

/-- C3: a `put` (saveToIndexedDB) or `clear` (clearIndexedDB) issued while
`imagesDB` is still null fails with `StoreNotReady` and leaves the state
exactly as it was — no write happens and nothing is queued (the returned
state carries no pending work).  Once initialization has completed
(`imagesDB = some db`), `put` succeeds and appends exactly one new asset
record. -/
theorem c3_store_not_ready_before_init (s : AppState) (b : Blob) (n f : String) :
    (s.imagesDB = none →
      saveToIndexedDB s b n f = (s, .error .StoreNotReady) ∧
      clearIndexedDB s = (s, .error .StoreNotReady)) ∧
    (∀ db : DBState, s.imagesDB = some db →
      saveToIndexedDB s b n f =
        ({ s with imagesDB := some { db with
            images := db.images ++ [⟨db.nextId, n, b, f⟩],
            nextId := db.nextId + 1 } },
         .ok db.nextId)) := by
  constructor
  · intro h
    exact ⟨saveToIndexedDB_none s b n f h, clearIndexedDB_none s h⟩
  · intro db h
    exact saveToIndexedDB_some s db b n f h

/-- Witness for C3 at a concrete uninitialized state and a concrete
initialized state. -/
theorem c3_store_not_ready_before_init_witness :
    (saveToIndexedDB ⟨none, "A"⟩ ⟨[1], "image/png"⟩ "x" "A" =
      (⟨none, "A"⟩, .error .StoreNotReady)) ∧
    (saveToIndexedDB ⟨some ⟨[], [], 1⟩, "A"⟩ ⟨[1], "image/png"⟩ "x" "A" =
      (⟨some ⟨[⟨1, "x", ⟨[1], "image/png"⟩, "A"⟩], [], 2⟩, "A"⟩, .ok 1)) := by
  have h1 := (c3_store_not_ready_before_init ⟨none, "A"⟩ ⟨[1], "image/png"⟩ "x" "A").1 rfl
  have h2 := (c3_store_not_ready_before_init ⟨some ⟨[], [], 1⟩, "A"⟩
      ⟨[1], "image/png"⟩ "x" "A").2 ⟨[], [], 1⟩ rfl
  exact ⟨h1.1, h2⟩

/-! ### C9: channel inversion is an involution, alpha untouched -/

theorem invertData_involutive (data : List Nat) (h : ∀ v ∈ data, v ≤ 255) :
    invertData (invertData data) = data := by
  induction data using invertData.induct with
  | case1 r g b a rest ih =>
      simp only [invertData]
      have hr : r ≤ 255 := h r (by simp)
      have hg : g ≤ 255 := h g (by simp)
      have hb : b ≤ 255 := h b (by simp)
      have hrest : ∀ v ∈ rest, v ≤ 255 := fun v hv => h v (by simp [hv])
      rw [ih hrest]
      simp only [List.cons.injEq, and_true, true_and]
      omega
  | case2 r g b =>
      simp only [invertData]
      have hr : r ≤ 255 := h r (by simp)
      have hg : g ≤ 255 := h g (by simp)
      have hb : b ≤ 255 := h b (by simp)
      simp only [List.cons.injEq, and_true, true_and]
      omega
  | case3 r g =>
      simp only [invertData]
      have hr : r ≤ 255 := h r (by simp)
      have hg : g ≤ 255 := h g (by simp)
      simp only [List.cons.injEq, and_true, true_and]
      omega
  | case4 r =>
      simp only [invertData]
      have hr : r ≤ 255 := h r (by simp)
      simp only [List.cons.injEq, and_true, true_and]
      omega
  | case5 => rfl

theorem alphaChannel_invertData (data : List Nat) :
    alphaChannel (invertData data) = alphaChannel data := by
  induction data using invertData.induct with
  | case1 r g b a rest ih => simp only [invertData, alphaChannel, ih]
  | case2 r g b => rfl
  | case3 r g => rfl
  | case4 r => rfl
  | case5 => rfl

/-- C9: the local conversion's per-channel inversion is an involution —
for pixel data whose channel values lie in [0,255] (as they do for a
`Uint8ClampedArray`), applying the inversion loop twice restores every
byte — and each single application leaves the alpha channel of every
pixel unchanged. -/
theorem c9_inversion_involutive (data : List Nat) (h : ∀ v ∈ data, v ≤ 255) :
    invertData (invertData data) = data ∧
    alphaChannel (invertData data) = alphaChannel data :=
  ⟨invertData_involutive data h, alphaChannel_invertData data⟩

/-- Witness for C9 on a concrete two-pixel RGBA array. -/
theorem c9_inversion_involutive_witness :
    invertData (invertData [10, 20, 30, 40, 250, 0, 255, 7]) = [10, 20, 30, 40, 250, 0, 255, 7] ∧
    alphaChannel (invertData [10, 20, 30, 40, 250, 0, 255, 7]) =
      alphaChannel [10, 20, 30, 40, 250, 0, 255, 7] :=
  c9_inversion_involutive [10, 20, 30, 40, 250, 0, 255, 7] (by decide)

/-! ### C10: clearing targets only the `images` object store -/

/-- C10: both the startup clear (`clearIndexedDB`) and the user-confirmed
delete-all handler open their transaction on the `images` object store
only: in every state, and whether or not the user confirms, the records of
the separate `logs` object store are unchanged — clear-all is not a wipe
of the whole database.  In particular any logs previously written by
`saveLog` survive both operations. -/
theorem c10_clear_preserves_logs (s : AppState) (confirmed : Bool)
    (message level timestamp : String) :
    getLogs (clearIndexedDB s).1 = getLogs s ∧
    getLogs (deleteAllBtnClick s confirmed).1 = getLogs s ∧
    getLogs (clearIndexedDB (saveLog s message level timestamp)).1 =
      getLogs (saveLog s message level timestamp) := by
  refine ⟨?_, ?_, ?_⟩
  · cases h : s.imagesDB with
    | none => rw [clearIndexedDB_none s h]
    | some db => rw [clearIndexedDB_some s db h]; simp [getLogs, h]
  · unfold deleteAllBtnClick
    cases confirmed with
    | false => rfl
    | true =>
        cases h : s.imagesDB with
        | none => simp [h]
        | some db => simp [h, getLogs]
  · cases h : (saveLog s message level timestamp).imagesDB with
    | none => rw [clearIndexedDB_none _ h]
    | some db => rw [clearIndexedDB_some _ db h]; simp [getLogs, h]

/-! ### C2: the Folder Index groups by folder in insertion order -/

theorem groupOf_map_bump_ne (map : List (String × List ImageAsset)) (img : ImageAsset)
    (f : String) (hne : img.folder ≠ f) :
    groupOf f (map.map (fun p => if p.1 = img.folder then (p.1, p.2 ++ [img]) else p)) =
      groupOf f map := by
  induction map with
  | nil => rfl
  | cons q rest ih =>
      by_cases hq : q.1 = img.folder
      · have hqf : q.1 ≠ f := by rw [hq]; exact hne
        simp only [List.map_cons, if_pos hq, groupOf, if_neg hqf, ih]
      · simp only [List.map_cons, if_neg hq, groupOf, ih]

theorem groupOf_map_bump_eq (map : List (String × List ImageAsset)) (img : ImageAsset)
    (hkey : map.any (fun p => p.1 == img.folder) = true) :
    groupOf img.folder
        (map.map (fun p => if p.1 = img.folder then (p.1, p.2 ++ [img]) else p)) =
      groupOf img.folder map ++ [img] := by
  induction map with
  | nil => simp at hkey
  | cons q rest ih =>
      by_cases hq : q.1 = img.folder
      · simp only [List.map_cons, if_pos hq, groupOf]
      · have hqb : (q.1 == img.folder) = false := by simpa using hq
        rw [List.any_cons, hqb, Bool.false_or] at hkey
        simp only [List.map_cons, if_neg hq, groupOf, ih hkey]

theorem groupOf_append_new (map : List (String × List ImageAsset)) (img : ImageAsset)
    (f : String) (hkey : map.any (fun p => p.1 == img.folder) = false) :
    groupOf f (map ++ [(img.folder, [img])]) =
      groupOf f map ++ (if img.folder = f then [img] else []) := by
  induction map with
  | nil =>
      simp only [List.nil_append, groupOf, List.nil_append]
  | cons q rest ih =>
      rw [List.any_cons, Bool.or_eq_false_iff] at hkey
      obtain ⟨hq1, hkey2⟩ := hkey
      have hq1' : q.1 ≠ img.folder := by simpa using hq1
      simp only [List.cons_append, groupOf]
      by_cases hq : q.1 = f
      · have hne : img.folder ≠ f := fun hc => hq1' (by rw [hq, hc])
        simp only [if_pos hq, if_neg hne, List.append_nil]
      · simp only [if_neg hq, List.append_eq, ih hkey2]

theorem groupOf_folderMapStep (map : List (String × List ImageAsset)) (img : ImageAsset)
    (f : String) :
    groupOf f (folderMapStep map img) =
      groupOf f map ++ (if img.folder = f then [img] else []) := by
  unfold folderMapStep
  by_cases hkey : map.any (fun p => p.1 == img.folder) = true
  · rw [if_pos hkey]
    by_cases hf : img.folder = f
    · subst hf
      rw [if_pos rfl]
      exact groupOf_map_bump_eq map img hkey
    · rw [if_neg hf, List.append_nil]
      exact groupOf_map_bump_ne map img f hf
  · rw [if_neg hkey]
    refine groupOf_append_new map img f ?_
    revert hkey
    cases map.any (fun p => p.1 == img.folder) <;> simp

theorem groupOf_foldl (images : List ImageAsset)
    (map : List (String × List ImageAsset)) (f : String) :
    groupOf f (images.foldl folderMapStep map) =
      groupOf f map ++ images.filter (fun a => a.folder == f) := by
  induction images generalizing map with
  | nil => simp
  | cons img rest ih =>
      simp only [List.foldl_cons]
      rw [ih, groupOf_folderMapStep, List.filter_cons]
      by_cases hf : img.folder = f
      · simp [hf]
      · simp [hf]

theorem groupOf_folderMap (images : List ImageAsset) (f : String) :
    groupOf f (folderMap images) = images.filter (fun a => a.folder == f) := by
  unfold folderMap
  rw [groupOf_foldl]
  rfl

/-- C2: after any sequence of `put` operations on an initialized store,
the Folder Index recomputed by `retrieveFromIndexedDB` from the current
`getAll()` snapshot assigns to every folder name exactly the assets whose
`folder` field is that name, in store order — so grouping is exact and
within-folder order is insertion order.  Since the index is a pure
function of the snapshot (`folderMap` is recomputed on every query), it
can never be stale with respect to the store's contents. -/
theorem c2_folder_index_correct (db : DBState) (active : String)
    (puts : List (Blob × String × String)) (f : String) :
    groupOf f (folderMap (storeImages (applyPuts ⟨some db, active⟩ puts))) =
      (storeImages (applyPuts ⟨some db, active⟩ puts)).filter
        (fun a => a.folder == f) :=
  groupOf_folderMap _ f

/-! ### The conversion pipeline (C1, C4, C5) -/

theorem runBatch_spec (dest : String) (pairs : List (ImageAsset × Option Blob)) :
    ∀ (act : String) (db : DBState),
    ∃ (db' : DBState) (news : List ImageAsset),
      (runBatch dest ⟨some db, act⟩ pairs).1 = ⟨some db', act⟩ ∧
      db'.images = db.images ++ news ∧
      (runBatch dest ⟨some db, act⟩ pairs).2 + news.length = pairs.length ∧
      (runBatch dest ⟨some db, act⟩ pairs).2 =
        (pairs.map Prod.snd).countP Option.isNone ∧
      ∀ a ∈ news, a.folder = dest ∧
        ∃ p ∈ pairs, a.name = "processed_" ++ p.1.name ∧ p.2 = some a.blob := by
  induction pairs with
  | nil =>
      intro act db
      exact ⟨db, [], rfl, by simp, rfl, rfl, by simp⟩
  | cons pair rest ih =>
      intro act db
      obtain ⟨image, outcome⟩ := pair
      cases outcome with
      | some processedBlob =>
          obtain ⟨db', news2, h1, h2, h3, h4, h5⟩ :=
            ih act { db with
              images := db.images ++
                [⟨db.nextId, "processed_" ++ image.name, processedBlob, dest⟩],
              nextId := db.nextId + 1 }
          refine ⟨db',
            ⟨db.nextId, "processed_" ++ image.name, processedBlob, dest⟩ :: news2,
            h1, ?_, ?_, ?_, ?_⟩
          · rw [h2]
            simp
          · show (runBatch dest
                ⟨some { db with
                  images := db.images ++
                    [⟨db.nextId, "processed_" ++ image.name, processedBlob, dest⟩],
                  nextId := db.nextId + 1 }, act⟩ rest).2 +
              (news2.length + 1) = rest.length + 1
            omega
          · show (runBatch dest
                ⟨some { db with
                  images := db.images ++
                    [⟨db.nextId, "processed_" ++ image.name, processedBlob, dest⟩],
                  nextId := db.nextId + 1 }, act⟩ rest).2 = _
            rw [h4]
            simp [List.countP_cons]
          · intro a ha
            rcases List.mem_cons.mp ha with hhead | htail
            · subst hhead
              exact ⟨rfl, (image, some processedBlob), List.mem_cons_self _ _, rfl, rfl⟩
            · obtain ⟨hfold, p, hp, hname, hblob⟩ := h5 a htail
              exact ⟨hfold, p, List.mem_cons_of_mem _ hp, hname, hblob⟩
      | none =>
          obtain ⟨db', news2, h1, h2, h3, h4, h5⟩ := ih act db
          refine ⟨db', news2, h1, h2, ?_, ?_, ?_⟩
          · show (runBatch dest ⟨some db, act⟩ rest).2 + 1 + news2.length =
              rest.length + 1
            omega
          · show (runBatch dest ⟨some db, act⟩ rest).2 + 1 = _
            rw [h4]
            simp [List.countP_cons]
          · intro a ha
            obtain ⟨hfold, p, hp, hname, hblob⟩ := h5 a ha
            exact ⟨hfold, p, List.mem_cons_of_mem _ hp, hname, hblob⟩

theorem processBtnClick_reduce (db : DBState) (act : String)
    (outcomes : List (Option Blob)) :
    processBtnClick ⟨some db, act⟩ outcomes =
      if act = "" then ((⟨some db, act⟩ : AppState), PipelineResult.noActiveFolder)
      else if (db.images.filter (fun image => image.folder == act)).length = 0 then
        (⟨some db, act⟩, PipelineResult.emptyFolder)
      else
        ((runBatch ("processed_" ++ act) ⟨some db, act⟩
            ((db.images.filter (fun image => image.folder == act)).zip outcomes)).1,
         PipelineResult.completed ("processed_" ++ act)
           (runBatch ("processed_" ++ act) ⟨some db, act⟩
             ((db.images.filter (fun image => image.folder == act)).zip outcomes)).2) :=
  rfl

/-- C1: over an initialized store with a non-empty active source folder of
N assets, for every pattern of per-asset delegated-service outcomes with k
failures, the batch is not aborted: the handler still reports completion
naming the destination folder `processed_<sourceFolder>`, carrying the k
failure alerts it raised along the way, and the destination folder gains
exactly N - k assets. -/
theorem c1_batch_failures_do_not_abort (db : DBState) (act : String)
    (outcomes : List (Option Blob))
    (hactive : act ≠ "")
    (hlen : outcomes.length =
      (db.images.filter (fun image => image.folder == act)).length)
    (hne : (db.images.filter (fun image => image.folder == act)).length ≠ 0) :
    ∃ db' : DBState,
      (processBtnClick ⟨some db, act⟩ outcomes).1 = ⟨some db', act⟩ ∧
      (processBtnClick ⟨some db, act⟩ outcomes).2 =
        .completed ("processed_" ++ act) (outcomes.countP Option.isNone) ∧
      (db'.images.filter (fun a => a.folder == "processed_" ++ act)).length =
        (db.images.filter (fun a => a.folder == "processed_" ++ act)).length +
          ((db.images.filter (fun image => image.folder == act)).length -
            outcomes.countP Option.isNone) := by
  obtain ⟨db', news, h1, h2, h3, h4, h5⟩ :=
    runBatch_spec ("processed_" ++ act)
      ((db.images.filter (fun image => image.folder == act)).zip outcomes) act db
  have hsnd : ((db.images.filter (fun image => image.folder == act)).zip outcomes).map
      Prod.snd = outcomes :=
    List.map_snd_zip _ _ (le_of_eq hlen)
  have hziplen : ((db.images.filter (fun image => image.folder == act)).zip
      outcomes).length = (db.images.filter (fun image => image.folder == act)).length := by
    rw [List.length_zip, ← hlen, Nat.min_self]
  rw [hsnd] at h4
  refine ⟨db', ?_, ?_, ?_⟩
  · rw [processBtnClick_reduce, if_neg hactive, if_neg hne]
    exact h1
  · rw [processBtnClick_reduce, if_neg hactive, if_neg hne]
    simp only []
    rw [h4]
  · have hfilter : news.filter (fun a => a.folder == "processed_" ++ act) = news :=
      List.filter_eq_self.mpr (fun a ha => by
        rw [(h5 a ha).1]; exact beq_self_eq_true _)
    rw [h2, List.filter_append, List.length_append, hfilter]
    omega

/-- Witness for C1: three assets in folder "A", the delegated service
fails for exactly the middle one; the destination gains 3 - 1 = 2 assets
and completion is still reported. -/
theorem c1_batch_failures_do_not_abort_witness :
    ∃ db' : DBState,
      (processBtnClick sampleState sampleOutcomes).1 = ⟨some db', "A"⟩ ∧
      (processBtnClick sampleState sampleOutcomes).2 =
        .completed ("processed_" ++ "A") (sampleOutcomes.countP Option.isNone) ∧
      (db'.images.filter (fun a => a.folder == "processed_" ++ "A")).length =
        (sampleDB.images.filter (fun a => a.folder == "processed_" ++ "A")).length +
          ((sampleDB.images.filter (fun image => image.folder == "A")).length -
            sampleOutcomes.countP Option.isNone) :=
  c1_batch_failures_do_not_abort sampleDB "A" sampleOutcomes
    (by decide) (by decide) (by decide)

/-- C4: the pipeline fails with NoActiveFolder when no folder is selected
(empty `activeFolder`), and with EmptyFolder when the active folder's
filter of the snapshot is empty; in both cases the returned state is the
input state — nothing is written to the store. -/
theorem c4_pipeline_guard_failures (odb : Option DBState) (db : DBState)
    (act : String) (outcomes : List (Option Blob)) :
    (act = "" →
      processBtnClick ⟨odb, act⟩ outcomes = (⟨odb, act⟩, .noActiveFolder)) ∧
    (act ≠ "" →
      (db.images.filter (fun image => image.folder == act)).length = 0 →
      processBtnClick ⟨some db, act⟩ outcomes = (⟨some db, act⟩, .emptyFolder)) := by
  constructor
  · intro h
    subst h
    rfl
  · intro hact hz
    rw [processBtnClick_reduce, if_neg hact, if_pos hz]

/-- Witness for C4: one state with no active folder, one whose active
folder "B" holds no assets. -/
theorem c4_pipeline_guard_failures_witness :
    processBtnClick ⟨some sampleDB, ""⟩ sampleOutcomes =
      (⟨some sampleDB, ""⟩, .noActiveFolder) ∧
    processBtnClick ⟨some sampleDB, "B"⟩ sampleOutcomes =
      (⟨some sampleDB, "B"⟩, .emptyFolder) :=
  ⟨(c4_pipeline_guard_failures (some sampleDB) sampleDB "" sampleOutcomes).1 rfl,
   (c4_pipeline_guard_failures (some sampleDB) sampleDB "B" sampleOutcomes).2
     (by decide) (by decide)⟩

/-- C5: every asset the batch writes is written through the store's put
with name `processed_<original name>` for some source asset of the active
folder, into destination folder `processed_<sourceFolder>`; the store ends
as its old contents plus exactly these derived assets. -/
theorem c5_converted_assets_named_and_routed (db : DBState) (act : String)
    (outcomes : List (Option Blob))
    (hactive : act ≠ "")
    (hlen : outcomes.length =
      (db.images.filter (fun image => image.folder == act)).length)
    (hne : (db.images.filter (fun image => image.folder == act)).length ≠ 0) :
    ∃ (db' : DBState) (news : List ImageAsset),
      (processBtnClick ⟨some db, act⟩ outcomes).1 = ⟨some db', act⟩ ∧
      db'.images = db.images ++ news ∧
      ∀ a ∈ news, a.folder = "processed_" ++ act ∧
        ∃ src, src ∈ db.images ∧ src.folder = act ∧
          a.name = "processed_" ++ src.name := by
  obtain ⟨db', news, h1, h2, h3, h4, h5⟩ :=
    runBatch_spec ("processed_" ++ act)
      ((db.images.filter (fun image => image.folder == act)).zip outcomes) act db
  refine ⟨db', news, ?_, h2, ?_⟩
  · rw [processBtnClick_reduce, if_neg hactive, if_neg hne]
    exact h1
  · intro a ha
    obtain ⟨hfold, p, hp, hname, _⟩ := h5 a ha
    obtain ⟨p1, p2⟩ := p
    have hmem : p1 ∈ db.images.filter (fun image => image.folder == act) :=
      (List.of_mem_zip hp).1
    obtain ⟨hsrc, hsf⟩ := List.mem_filter.mp hmem
    exact ⟨hfold, p1, hsrc, by simpa using hsf, hname⟩

/-- Witness for C5 at the same concrete three-asset batch as C1. -/
theorem c5_converted_assets_named_and_routed_witness :
    ∃ (db' : DBState) (news : List ImageAsset),
      (processBtnClick sampleState sampleOutcomes).1 = ⟨some db', "A"⟩ ∧
      db'.images = sampleDB.images ++ news ∧
      ∀ a ∈ news, a.folder = "processed_" ++ "A" ∧
        ∃ src, src ∈ sampleDB.images ∧ src.folder = "A" ∧
          a.name = "processed_" ++ src.name :=
  c5_converted_assets_named_and_routed sampleDB "A" sampleOutcomes
    (by decide) (by decide) (by decide)

/-! ### C6: export (spec-modelled; the download-all handler is not in the
provided sources) -/

/-- C6: `exportFolder` fails with EmptyFolder when the folder holds no
assets, and otherwise returns one bundle entry per asset of the folder —
entry name the stored asset name, entry content the stored payload blob —
in the folder's insertion order; being a pure function of the database,
it mutates nothing. -/
theorem c6_export_folder_complete (db : DBState) (folderName : String) :
    ((db.images.filter (fun a => a.folder == folderName)) = [] →
      exportFolder db folderName = .error .EmptyFolder) ∧
    ((db.images.filter (fun a => a.folder == folderName)) ≠ [] →
      exportFolder db folderName =
        .ok ((db.images.filter (fun a => a.folder == folderName)).map
          (fun a => (a.name, a.blob))) ∧
      ((db.images.filter (fun a => a.folder == folderName)).map
          (fun a => (a.name, a.blob))).length =
        (db.images.filter (fun a => a.folder == folderName)).length) := by
  constructor
  · intro h
    unfold exportFolder
    rw [h]
    rfl
  · intro h
    refine ⟨?_, List.length_map _ _⟩
    unfold exportFolder
    rw [if_neg (by simpa [List.isEmpty_iff] using h)]

/-- Witness for C6: exporting the empty folder "B" fails, exporting "A"
bundles all three assets by name, payload and order. -/
theorem c6_export_folder_complete_witness :
    exportFolder sampleDB "B" = .error .EmptyFolder ∧
    exportFolder sampleDB "A" =
      .ok ((sampleDB.images.filter (fun a => a.folder == "A")).map
        (fun a => (a.name, a.blob))) :=
  ⟨(c6_export_folder_complete sampleDB "B").1 (by decide),
   ((c6_export_folder_complete sampleDB "A").2 (by decide)).1⟩

/-! ### C7: capture with no active folder -/

/-- C7 as stated is false on the code: with the store initialized and no
active folder selected (`activeFolder` is the empty string), the
`captureBtn` handler does not fail with NoActiveFolder — `saveToIndexedDB`
only checks `imagesDB`, so one asset IS written, with its `folder` field
the empty string. -/
theorem c7_capture_no_folder_counterexample :
    (captureBtnClick ⟨some ⟨[], [], 1⟩, ""⟩ ⟨[7], "image/png"⟩ 42).2 = .ok 1 ∧
    (captureBtnClick ⟨some ⟨[], [], 1⟩, ""⟩ ⟨[7], "image/png"⟩ 42).1 =
      ⟨some ⟨[⟨1, "Image_" ++ toString 42 ++ ".png", ⟨[7], "image/png"⟩, ""⟩], [], 2⟩,
        ""⟩ :=
  ⟨rfl, rfl⟩

/-- C7 (amended): capturing performs no active-folder check — on an
initialized store it always writes exactly one new asset, named from the
current timestamp, into whatever `activeFolder` holds (the empty-string
folder when none is selected); when an active folder is selected this is
the claimed behavior. It fails (with the store's not-ready error, writing
nothing) only when the store is uninitialized. -/
theorem c7_capture_writes_into_active_folder (s : AppState) (db : DBState)
    (frame : Blob) (now : Nat) (h : s.imagesDB = some db) :
    captureBtnClick s frame now =
      ({ s with imagesDB := some { db with
          images := db.images ++
            [⟨db.nextId, "Image_" ++ toString now ++ ".png", frame, s.activeFolder⟩],
          nextId := db.nextId + 1 } },
       .ok db.nextId) :=
  saveToIndexedDB_some s db frame ("Image_" ++ toString now ++ ".png")
    s.activeFolder h

/-- Witness for the amended C7, at a state with active folder "A". -/
theorem c7_capture_writes_into_active_folder_witness :
    captureBtnClick sampleState ⟨[5], "image/png"⟩ 7 =
      ({ sampleState with imagesDB := some { sampleDB with
          images := sampleDB.images ++
            [⟨sampleDB.nextId, "Image_" ++ toString 7 ++ ".png", ⟨[5], "image/png"⟩,
              sampleState.activeFolder⟩],
          nextId := sampleDB.nextId + 1 } },
       .ok sampleDB.nextId) :=
  c7_capture_writes_into_active_folder sampleState sampleDB ⟨[5], "image/png"⟩ 7 rfl

/-! ### C8: the capture device is never released -/

/-- C8 is violated by the code: the `backToMenuBtnScan` handler only
toggles which view is displayed and re-derives the folder list; it never
stops the media stream's tracks (no call in the script does), so exiting
`Scanning` by back-navigation leaves the capture device held while the
view controller is in `Menu`. -/
theorem c8_camera_not_released_on_back :
    backToMenuBtnScanClick ⟨View.Scanning, true⟩ = ⟨View.Menu, true⟩ ∧
    backToMenuBtnScanClick (startScanBtnClick ⟨View.FolderContents, false⟩ true) =
      ⟨View.Menu, true⟩ :=
  ⟨rfl, rfl⟩

end FilmScanner
